import Mathlib

/-!
Verification of the adaptive extraction-and-reconciliation pipeline of the
dealhunt-scraper repository.

The JavaScript source is shallowly embedded in Lean:
  * JS numbers are modelled as `ℚ`; a field that is absent, `null`, `undefined`,
    or a failed numeric parse (`NaN`) is modelled as `none : Option ℚ`.
  * JS strings are modelled as `String`, or as `List Char` where character-level
    pattern matching is required.
  * Stateful code (the selector pattern store, the healing cooldown map) is
    modelled by explicit state passing.
  * Code that can throw is modelled with `Except`.
Each definition carries a comment naming the source file and function it embeds.
-/

/-! ## JS arithmetic helpers -/

/-- JS `Math.round` on a non-negative rational: round half toward positive
infinity, which is `⌊q + 1/2⌋`, written through `Rat.num`/`Rat.den` so that the
kernel can evaluate it on concrete inputs. -/
def jsRound (q : ℚ) : ℤ := (q + 1 / 2).num / ((q + 1 / 2).den : ℤ)

/-! ## Validator and quality scorer

From `src/scrapers/core/base-scraper.js`, `validateProduct` (lines 222-270) and
`calculateQualityScore` (lines 272-282). -/

/-- A raw candidate record produced per element, before validation.
Numeric fields use `none` for missing / null / NaN values. -/
structure CandidateRecord where
  title : String
  image_url : Option String
  current_price : Option ℚ
  original_price : Option ℚ
  discount_percent : Option ℚ
  rating : Option ℚ
  review_count : Option ℚ
  specifications : Option (List (String × String))
deriving Repr, DecidableEq

/-- The normalized record returned by `validateProduct` when it accepts. -/
structure ValidatedProduct where
  title : String
  image_url : Option String
  current_price : ℚ
  original_price : ℚ
  discount_percent : ℚ
  rating : Option ℚ
  review_count : ℚ
  specifications : List (String × String)
  quality_score : ℤ
deriving Repr, DecidableEq

/-- base-scraper.js lines 228-230: an original price that is missing, NaN or
negative is replaced by the current price. -/
def normalizeOriginal (c0 : ℚ) : Option ℚ → ℚ
  | none => c0
  | some o => if o < 0 then c0 else o

/-- base-scraper.js line 233 (swap branch): the larger of the two inverted
prices becomes the original price. -/
def finalOriginal (c0 o0 : ℚ) : ℚ := if o0 < c0 then c0 else o0

/-- base-scraper.js line 233 (swap branch): the smaller of the two inverted
prices becomes the current price. -/
def finalCurrent (c0 o0 : ℚ) : ℚ := if o0 < c0 then o0 else c0

/-- base-scraper.js lines 232-237: when the original price was below the
current price the discount percent is recomputed from the swapped prices,
otherwise the raw discount field is kept. -/
def discountAfterSwap (c0 o0 : ℚ) (d : Option ℚ) : Option ℚ :=
  if o0 < c0 then some ((jsRound (((c0 - o0) / c0) * 100) : ℤ) : ℚ) else d

/-- base-scraper.js lines 240-244: missing/NaN discount becomes 0, then the
value is clamped into [0, 95] (the `< 0` floor is applied before the `> 95` cap,
exactly as the two sequential statements do). -/
def clampDiscount (d : Option ℚ) : ℚ :=
  if d.getD 0 < 0 then 0 else if d.getD 0 > 95 then 95 else d.getD 0

/-- base-scraper.js lines 247-249: a rating outside [0, 5] (or NaN) becomes
null; a null rating stays null. -/
def normalizeRating : Option ℚ → Option ℚ
  | none => none
  | some r => if r < 0 ∨ r > 5 then none else some r

/-- base-scraper.js lines 252-254: missing/NaN/negative review count becomes 0. -/
def reviewCountRaw : Option ℚ → ℚ
  | none => 0
  | some x => if x < 0 then 0 else x

/-- base-scraper.js lines 252-255: the review count after the zero floor and
the 999999 cap (applied only above 1000000). -/
def clampReviewCount (rc : Option ℚ) : ℚ :=
  if reviewCountRaw rc > 1000000 then 999999 else reviewCountRaw rc

/-- base-scraper.js lines 272-282 (`calculateQualityScore`), applied to the
already-normalized fields exactly as `validateProduct` line 263 does.
`!product.rating` is truthy-false for both null and 0, hence the first test. -/
def calculateQualityScore (rating : Option ℚ) (review_count : ℚ)
    (specifications : List (String × String)) (discount_percent : ℚ)
    (image_url : Option String) (title : String) : ℤ :=
  max 0 ((((((((100 : ℤ)
    - (if rating = none ∨ rating = some 0 then 15 else 0))
    - (if review_count = 0 then 10 else 0))
    - (if specifications.length = 0 then 20 else 0))
    - (if specifications.length < 3 then 10 else 0))
    - (if discount_percent = 0 then 5 else 0))
    - (if image_url = none ∨ image_url = some "" then 10 else 0))
    - (if title.length < 20 then 10 else 0))

/-- The quality score `validateProduct` computes at base-scraper.js line 263,
expressed over the already-normalized fields. -/
def qualityOf (p : CandidateRecord) (c0 o0 : ℚ) : ℤ :=
  calculateQualityScore (normalizeRating p.rating) (clampReviewCount p.review_count)
    (p.specifications.getD []) (clampDiscount (discountAfterSwap c0 o0 p.discount_percent))
    p.image_url p.title

/-- The normalized record `validateProduct` returns on acceptance
(base-scraper.js line 269), with every field after its normalization step. -/
def normalizedRecord (p : CandidateRecord) (c0 o0 : ℚ) : ValidatedProduct where
  title := p.title
  image_url := p.image_url
  current_price := finalCurrent c0 o0
  original_price := finalOriginal c0 o0
  discount_percent := clampDiscount (discountAfterSwap c0 o0 p.discount_percent)
  rating := normalizeRating p.rating
  review_count := clampReviewCount p.review_count
  specifications := p.specifications.getD []
  quality_score := qualityOf p c0 o0

/-- base-scraper.js lines 262-269: score the normalized record and reject it
when the quality score is below 30. -/
def gateOnQuality (p : CandidateRecord) (c0 o0 : ℚ) : Option ValidatedProduct :=
  if qualityOf p c0 o0 < 30 then none else some (normalizedRecord p c0 o0)

/-- base-scraper.js lines 222-270 (`validateProduct`): reject when the current
price is missing/NaN/nonpositive, then normalize every field, score, and gate. -/
def validateProduct (p : CandidateRecord) : Option ValidatedProduct :=
  match p.current_price with
  | none => none
  | some c0 =>
    if c0 ≤ 0 then none
    else gateOnQuality p c0 (normalizeOriginal c0 p.original_price)

/-! ## Title attribute inferencer

From `src/scrapers/core/base-scraper.js`, `extractSpecsFromTitle` (lines
159-219). Each JS regular expression used there is embedded as an executable
matcher over `List Char`. All of the regexes are case-insensitive, scan for the
leftmost match, and are simple enough that greedy matching without backtracking
is equivalent (shrinking `\d+` or `\s*` can never enable a match, because the
character class that follows each is disjoint from the one that shrinks). -/

/-- JS `\d`. -/
def jsIsDigit (c : Char) : Bool := '0' ≤ c && c ≤ '9'

/-- JS `\s`, restricted to the ASCII whitespace that can occur in the titles. -/
def jsIsSpace (c : Char) : Bool := c = ' ' || c = '\t' || c = '\n' || c = '\r'

/-- JS `\w`. -/
def jsIsWordChar (c : Char) : Bool :=
  jsIsDigit c || ('a' ≤ c && c ≤ 'z') || ('A' ≤ c && c ≤ 'Z') || c = '_'

/-- Case-insensitive character comparison (the regexes all carry the `i` flag). -/
def ciEq (a b : Char) : Bool := a.toLower = b.toLower

/-- Match a literal pattern case-insensitively at the head of the text,
returning the remaining text. -/
def matchLitCI : List Char → List Char → Option (List Char)
  | [], l => some l
  | _ :: _, [] => none
  | p :: ps, c :: cs => if ciEq p c then matchLitCI ps cs else none

/-- Split off a maximal (possibly empty) run of digits: the `\d+`/`\d*` pieces. -/
def takeDigits (l : List Char) : List Char × List Char :=
  (l.takeWhile jsIsDigit, l.dropWhile jsIsDigit)

/-- Consume `\s*`. -/
def skipSpaces (l : List Char) : List Char := l.dropWhile jsIsSpace

/-- Run a positional matcher at every start position from left to right and
return the first (leftmost) success — the semantics of `String.match` with a
non-anchored, non-global regex. -/
def scanFor {α : Type} (m : List Char → Option α) : List Char → Option α
  | [] => m []
  | c :: cs =>
    match m (c :: cs) with
    | some r => some r
    | none => scanFor m cs

/-- `/(\d+)\s*GB\s*RAM/i` at one position; returns capture group 1. -/
def ramMatchAt (l : List Char) : Option (List Char) :=
  match takeDigits l with
  | ([], _) => none
  | (ds, r1) =>
    match matchLitCI (("gb").toList) (skipSpaces r1) with
    | none => none
    | some r2 =>
      match matchLitCI (("ram").toList) (skipSpaces r2) with
      | none => none
      | some _ => some ds

/-- `/(\d+)\s*GB(?!\s*RAM)/i` at one position (negative lookahead after `GB`). -/
def storageGBMatchAt (l : List Char) : Option (List Char) :=
  match takeDigits l with
  | ([], _) => none
  | (ds, r1) =>
    match matchLitCI (("gb").toList) (skipSpaces r1) with
    | none => none
    | some r2 =>
      match matchLitCI (("ram").toList) (skipSpaces r2) with
      | some _ => none
      | none => some ds

/-- `/(\d+)\s*TB/i` at one position. -/
def tbMatchAt (l : List Char) : Option (List Char) :=
  match takeDigits l with
  | ([], _) => none
  | (ds, r1) => (matchLitCI (("tb").toList) (skipSpaces r1)).map (fun _ => ds)

/-- `/(\d+\.?\d*)\s*(?:inch|")/i` at one position; returns capture group 1. -/
def displayMatchAt (l : List Char) : Option (List Char) :=
  match takeDigits l with
  | ([], _) => none
  | (d1, r1) =>
    let capRest : List Char × List Char :=
      match r1 with
      | '.' :: rest =>
        match takeDigits rest with
        | (d2, r3) => (d1 ++ '.' :: d2, r3)
      | _ => (d1, r1)
    match capRest with
    | (cap, r2) =>
      let r3 := skipSpaces r2
      match matchLitCI (("inch").toList) r3 with
      | some _ => some cap
      | none =>
        match r3 with
        | '"' :: _ => some cap
        | _ => none

/-- `/(\d+)\s*mAh/i` at one position. -/
def batteryMatchAt (l : List Char) : Option (List Char) :=
  match takeDigits l with
  | ([], _) => none
  | (ds, r1) => (matchLitCI (("mah").toList) (skipSpaces r1)).map (fun _ => ds)

/-- `/(\d+)\s*MP/i` at one position. -/
def cameraMatchAt (l : List Char) : Option (List Char) :=
  match takeDigits l with
  | ([], _) => none
  | (ds, r1) => (matchLitCI (("mp").toList) (skipSpaces r1)).map (fun _ => ds)

/-- `/(\d+)\s*Hz/i` at one position. -/
def refreshMatchAt (l : List Char) : Option (List Char) :=
  match takeDigits l with
  | ([], _) => none
  | (ds, r1) => (matchLitCI (("hz").toList) (skipSpaces r1)).map (fun _ => ds)

/-- `/(\d+)\s*W/i` at one position. -/
def chargingMatchAt (l : List Char) : Option (List Char) :=
  match takeDigits l with
  | ([], _) => none
  | (ds, r1) => (matchLitCI (("w").toList) (skipSpaces r1)).map (fun _ => ds)

/-- `/Android\s*(\d+)/i` at one position; returns capture group 1. -/
def androidVerMatchAt (l : List Char) : Option (List Char) :=
  match matchLitCI (("android").toList) l with
  | none => none
  | some r1 =>
    match takeDigits (skipSpaces r1) with
    | ([], _) => none
    | (ds, _) => some ds

/-- Case-insensitive substring test: `/pat/i.test(s)` for a literal `pat`. -/
def ciContains (needle : List Char) : List Char → Bool
  | [] => (matchLitCI needle []).isSome
  | c :: cs => (matchLitCI needle (c :: cs)).isSome || ciContains needle cs

/-- The processor alternation
`Snapdragon|MediaTek|Dimensity|Exynos|Helio|A\d+\s*Bionic` at one position,
alternatives tried in source order; returns the number of characters matched. -/
def procAltLen (l : List Char) : Option ℕ :=
  match matchLitCI (("snapdragon").toList) l with
  | some _ => some 10
  | none =>
  match matchLitCI (("mediatek").toList) l with
  | some _ => some 8
  | none =>
  match matchLitCI (("dimensity").toList) l with
  | some _ => some 9
  | none =>
  match matchLitCI (("exynos").toList) l with
  | some _ => some 6
  | none =>
  match matchLitCI (("helio").toList) l with
  | some _ => some 5
  | none =>
  match l with
  | [] => none
  | a :: rest =>
    if ciEq a ('A') then
      match takeDigits rest with
      | ([], _) => none
      | (ds, r1) =>
        match matchLitCI (("bionic").toList) (skipSpaces r1) with
        | some _ => some (1 + ds.length + (r1.takeWhile jsIsSpace).length + 6)
        | none => none
    else none

/-- JS `String.prototype.trim` restricted to the modelled whitespace. -/
def jsTrim (l : List Char) : List Char :=
  ((l.dropWhile jsIsSpace).reverse.dropWhile jsIsSpace).reverse

/-- `/(Snapdragon|MediaTek|Dimensity|Exynos|Helio|A\d+\s*Bionic)[\s\w]*/i` at
one position: on a hit, extend greedily over `[\s\w]*` and return the whole
match (`match[0]`), taken from the original text to preserve its case. -/
def processorMatchAt (l : List Char) : Option (List Char) :=
  match procAltLen l with
  | none => none
  | some n =>
    let tail := l.drop n
    some (l.take (n + (tail.takeWhile (fun c => jsIsSpace c || jsIsWordChar c)).length))

/-- The color words of base-scraper.js line 211, in alternation order. -/
def colorWords : List (List Char) :=
  [("Black").toList, ("White").toList, ("Blue").toList, ("Green").toList,
   ("Red").toList, ("Gold").toList, ("Silver").toList, ("Purple").toList,
   ("Pink").toList, ("Grey").toList, ("Gray").toList, ("Orange").toList,
   ("Yellow").toList, ("Titanium").toList, ("Bronze").toList]

/-- Try one color word at this position, requiring the `\b` after it; the
capture is the slice of the original text (original case). -/
def tryColorWord (w : List Char) (l : List Char) : Option (List Char) :=
  match matchLitCI w l with
  | none => none
  | some rest =>
    match rest with
    | [] => some (l.take w.length)
    | c :: _ => if jsIsWordChar c then none else some (l.take w.length)

/-- Try the color alternatives in order at one position. -/
def colorMatchHere : List (List Char) → List Char → Option (List Char)
  | [], _ => none
  | w :: ws, l =>
    match tryColorWord w l with
    | some r => some r
    | none => colorMatchHere ws l

/-- Scan for `/\b(color...)\b/i`, tracking whether the previous character is a
word character (the `\b` before the match; every color word starts with a word
character, so the boundary holds exactly when the previous one is not). -/
def colorScanAux (prevIsWord : Bool) : List Char → Option (List Char)
  | [] => none
  | c :: cs =>
    match (if prevIsWord then none else colorMatchHere colorWords (c :: cs)) with
    | some r => some r
    | none => colorScanAux (jsIsWordChar c) cs

/-- The inferred attribute mapping. A `none` field is an attribute key that the
JS object never receives. -/
structure Specs where
  ram : Option (List Char) := none
  storage : Option (List Char) := none
  display_size : Option (List Char) := none
  battery : Option (List Char) := none
  connectivity : Option (List Char) := none
  camera : Option (List Char) := none
  processor : Option (List Char) := none
  os : Option (List Char) := none
  refresh_rate : Option (List Char) := none
  fast_charging : Option (List Char) := none
  color : Option (List Char) := none
deriving Repr, DecidableEq

/-- base-scraper.js lines 163-165: `specs.ram`. -/
def ramOf (title : List Char) : Option (List Char) :=
  (scanFor ramMatchAt title).map (fun ds => ds ++ ("GB").toList)

/-- base-scraper.js lines 167-172: `specs.storage`; the TB assignment runs
after (and therefore overrides) the GB assignment. -/
def storageOf (title : List Char) : Option (List Char) :=
  match scanFor tbMatchAt title with
  | some ds => some (ds ++ ("TB").toList)
  | none => (scanFor storageGBMatchAt title).map (fun ds => ds ++ ("GB").toList)

/-- base-scraper.js lines 175-176: `specs.display_size`. -/
def displaySizeOf (title : List Char) : Option (List Char) :=
  (scanFor displayMatchAt title).map (fun ds => ds ++ (" inch").toList)

/-- base-scraper.js lines 179-180: `specs.battery`. -/
def batteryOf (title : List Char) : Option (List Char) :=
  (scanFor batteryMatchAt title).map (fun ds => ds ++ ("mAh").toList)

/-- base-scraper.js lines 183-184: `specs.connectivity`. -/
def connectivityOf (title : List Char) : Option (List Char) :=
  if ciContains (("5g").toList) title then some (("5G").toList)
  else if ciContains (("4g").toList) title || ciContains (("lte").toList) title then
    some (("4G").toList)
  else none

/-- base-scraper.js lines 187-188: `specs.camera`. -/
def cameraOf (title : List Char) : Option (List Char) :=
  (scanFor cameraMatchAt title).map (fun ds => ds ++ ("MP").toList)

/-- base-scraper.js lines 191-192: `specs.processor`
(`match[0].trim().substring(0, 50)`). -/
def processorOf (title : List Char) : Option (List Char) :=
  (scanFor processorMatchAt title).map (fun m => (jsTrim m).take 50)

/-- base-scraper.js lines 195-200: `specs.os`. -/
def osOf (title : List Char) : Option (List Char) :=
  if ciContains (("android").toList) title then
    match scanFor androidVerMatchAt title with
    | some ds => some (("Android ").toList ++ ds)
    | none => some (("Android").toList)
  else if ciContains (("ios").toList) title || ciContains (("iphone").toList) title then
    some (("iOS").toList)
  else none

/-- base-scraper.js lines 203-204: `specs.refresh_rate`. -/
def refreshRateOf (title : List Char) : Option (List Char) :=
  (scanFor refreshMatchAt title).map (fun ds => ds ++ ("Hz").toList)

/-- base-scraper.js lines 207-208: `specs.fast_charging`. -/
def fastChargingOf (title : List Char) : Option (List Char) :=
  (scanFor chargingMatchAt title).map (fun ds => ds ++ ("W").toList)

/-- base-scraper.js lines 211-212: `specs.color` (capture group 1 is the whole
matched word, in the title's original case). -/
def colorOf (title : List Char) : Option (List Char) := colorScanAux false title

/-- base-scraper.js lines 159-219 (`extractSpecsFromTitle`): each attribute is
computed by its own matcher over the title, independently of the others. -/
def extractSpecsFromTitle (title : List Char) : Specs where
  ram := ramOf title
  storage := storageOf title
  display_size := displaySizeOf title
  battery := batteryOf title
  connectivity := connectivityOf title
  camera := cameraOf title
  processor := processorOf title
  os := osOf title
  refresh_rate := refreshRateOf title
  fast_charging := fastChargingOf title
  color := colorOf title

/-! ## Pattern Store entry and confidence updates

From `src/scrapers/selector-healer.js`, `updateConfidence` (lines 202-227) and
`healSelector` (lines 147-199). The store document's entry for one
(platform, field) pair is modelled; timestamps are integers. -/

/-- One `patterns[platform].patterns[fieldName]` entry. -/
structure FieldPattern where
  selectors : List String
  confidence : ℤ
  last_healed : Option ℤ := none
  last_worked : Option ℤ := none
deriving Repr, DecidableEq

/-- JS `field.confidence || 50`: a confidence of 0 is falsy and falls back to
the default 50. -/
def confOrDefault (c : ℤ) : ℤ := if c = 0 then 50 else c

/-- JS `Array.prototype.indexOf`: first index, or -1 when absent. -/
def jsIndexOf (l : List String) (s : String) : ℤ :=
  if s ∈ l then (l.indexOf s : ℤ) else -1

/-- selector-healer.js lines 202-227 (`updateConfidence`), as the pure update
of the field entry it mutates and saves. On success the confidence rises by 5
(capped at 100), `last_worked` is stamped, and the selector is spliced to the
front when its index is strictly positive; on failure the confidence drops by
10 (floored at 0). -/
def updateConfidence (f : FieldPattern) (selector : String) (worked : Bool)
    (now : ℤ) : FieldPattern :=
  if worked then
    let f1 : FieldPattern :=
      { f with confidence := min 100 (confOrDefault f.confidence + 5), last_worked := some now }
    if jsIndexOf f.selectors selector > 0 then
      { f1 with selectors := selector :: f1.selectors.erase selector }
    else f1
  else
    { f with confidence := max 0 (confOrDefault f.confidence - 10) }

/-! ## Healer -/

/-- The structured response expected from the selector-inference collaborator
(`findSelector`'s parsed JSON). -/
structure InferredSelectors where
  primary : String
  fallback1 : String
  fallback2 : String
deriving Repr, DecidableEq

/-- JS `array.filter((v, i, a) => a.indexOf(v) === i)`: keep the first
occurrence of each element. -/
def dedupKeepFirst : List String → List String
  | [] => []
  | s :: rest => s :: (dedupKeepFirst (rest.filter (fun t => t ≠ s)))
termination_by l => l.length
decreasing_by
  simp only [List.length_cons]
  exact Nat.lt_succ_of_le (List.length_filter_le _ _)

/-- selector-healer.js lines 147-199 (`healSelector`), with the two IO
collaborators passed in explicitly: `infer` abstracts `findSelector` (the
external inference call) and `patternsDoc` is what `loadPatterns` would return
(`none` when loading fails; `some none` when the document loads but has no
entry for this field yet). The result is the returned selector, whether the
external inference service was called, and the field entry after the call. -/
def healSelector (htmlSample : Option (List Char))
    (infer : List Char → Option InferredSelectors)
    (patternsDoc : Option (Option FieldPattern)) (now : ℤ) :
    Option String × Bool × Option (Option FieldPattern) :=
  match htmlSample with
  | none => (none, false, patternsDoc)
  | some sample =>
    if sample.length < 100 then (none, false, patternsDoc)
    else
      let truncated := sample.take 5000
      match infer truncated with
      | none => (none, true, patternsDoc)
      | some ns =>
        match patternsDoc with
        | none => (none, true, patternsDoc)
        | some entry =>
          let cur : FieldPattern := entry.getD { selectors := [], confidence := 0 }
          let merged :=
            (dedupKeepFirst (ns.primary :: ns.fallback1 :: ns.fallback2 :: cur.selectors)).take 5
          (some ns.primary, true,
            some (some { cur with selectors := merged, confidence := 80, last_healed := some now }))

/-! ## Healing cooldown and the selector resolver

From `src/scrapers/core/base-scraper.js`, `canHeal` (lines 91-103) and
`smartExtract` (lines 106-156). The cooldown map `this.healingCooldowns` is a
total map from key strings to the last-attempt epoch milliseconds (0 for a key
never attempted, matching `|| 0`). -/

/-- The ad hoc cooldown key of base-scraper.js line 92. -/
def healKey (platformName fieldName : String) : String :=
  platformName ++ "_" ++ fieldName

/-- base-scraper.js lines 91-103 (`canHeal`): inside the 30000 ms window the
call returns false and leaves the map untouched; otherwise it stamps the key
with the current time and returns true. -/
def canHeal (cooldowns : String → ℤ) (platformName fieldName : String) (now : ℤ) :
    Bool × (String → ℤ) :=
  if now - cooldowns (healKey platformName fieldName) < 30000 then
    (false, cooldowns)
  else
    (true, fun k => if k = healKey platformName fieldName then now else cooldowns k)

/-- The selector loop of base-scraper.js lines 111-128: first selector whose
find-and-extract yields a usable value, together with its index. `tryExtract`
abstracts `$(element).find(selector)` followed by `extractFn`; a `none` result
covers no matching element, a null/undefined/empty/NaN extraction, and a thrown
exception (all of which make the loop move on). -/
def firstHit {V : Type} (tryExtract : String → Option V) :
    List String → Option (String × ℕ × V)
  | [] => none
  | s :: rest =>
    match tryExtract s with
    | some v => some (s, 0, v)
    | none => (firstHit tryExtract rest).map (fun r => (r.1, r.2.1 + 1, r.2.2))

/-- The outcome of one `smartExtract` call: the extracted value, the pattern
store entry and cooldown map afterwards, and whether a heal was attempted. -/
structure SmartExtractResult (V : Type) where
  result : Option V
  store : FieldPattern
  cooldowns : String → ℤ
  healAttempted : Bool

/-- base-scraper.js lines 106-156 (`smartExtract`). `store` is the pattern
store entry for (platform, field) — read for its selector list and written by
`updateConfidence` (success of the top-ranked selector) and by the healer.
`healOracle` abstracts `healer.healSelector` plus the re-load of patterns: it
returns the new selector (if any) and the store entry afterwards. -/
def smartExtract {V : Type} (healerPresent : Bool) (store : FieldPattern)
    (cooldowns : String → ℤ) (now : ℤ) (platformName fieldName : String)
    (tryExtract : String → Option V)
    (healOracle : FieldPattern → Option String × FieldPattern)
    (fallbackValue : Option V) : SmartExtractResult V :=
  match firstHit tryExtract store.selectors with
  | some (sel, i, v) =>
    { result := some v
      store := if healerPresent ∧ i = 0 then updateConfidence store sel true now else store
      cooldowns := cooldowns
      healAttempted := false }
  | none =>
    if healerPresent then
      match canHeal cooldowns platformName fieldName now with
      | (ok, cooldowns1) =>
        if ok then
          match healOracle store with
          | (some s, store1) =>
            match tryExtract s with
            | some v =>
              { result := some v, store := store1, cooldowns := cooldowns1, healAttempted := true }
            | none =>
              { result := fallbackValue, store := store1, cooldowns := cooldowns1,
                healAttempted := true }
          | (none, store1) =>
            { result := fallbackValue, store := store1, cooldowns := cooldowns1,
              healAttempted := true }
        else
          { result := fallbackValue, store := store, cooldowns := cooldowns1,
            healAttempted := false }
    else
      { result := fallbackValue, store := store, cooldowns := cooldowns, healAttempted := false }

/-! ## Page orchestrator retry loop

From `src/scrapers/platforms/*` (`scrapePage` in amazon.js lines 163-212 and
flipkart.js lines 229-301 — the retry skeleton is identical in both).
`outcome k` abstracts attempt `k`'s fetch, block classification, parse and
extraction: `.error` is a transport failure or a page classified as blocked
(the `throw new Error('BLOCKED')` path), `.ok ps` a parsed page's product list.
The second component of the result collects the backoff delays
(`attempt * 5000` ms) slept before each retry. -/

def scrapePage {P : Type} (outcome : ℕ → Except String (List P)) (attempt : ℕ) :
    Except String (List P × List ℕ) :=
  match outcome attempt with
  | .ok ps => .ok (ps, [])
  | .error _ =>
    if _h : attempt < 3 then
      match scrapePage outcome (attempt + 1) with
      | .ok (ps, ds) => .ok (ps, attempt * 5000 :: ds)
      | .error e1 => .error e1
    else
      .ok ([], [])
termination_by 3 - attempt
decreasing_by omega

/-- Whether an `Except` computation succeeded. -/
def exceptIsOk {ε α : Type} : Except ε α → Bool
  | .ok _ => true
  | .error _ => false

/-! ## Reconciler

From `src/models/Products.js` (`Product.upsert`, the `INSERT ... ON CONFLICT
(product_id) DO UPDATE SET` statement, lines 24-43), modelled as the row
transformation the statement performs. Only the columns named in the
`DO UPDATE SET` list change on conflict; `scrape_count` increments and
`last_updated` is stamped. On insert the row is built from the incoming values
with the schema defaults (`scrape_count INTEGER DEFAULT 1`). -/

/-- The values bound to the insert parameters ($1..$15 minus the platform id). -/
structure IncomingProduct where
  product_id : String
  title : String
  brand : String
  category : String
  subcategory : Option String
  image_url : Option String
  product_url : Option String
  current_price : ℚ
  original_price : ℚ
  discount_percent : ℚ
  is_available : Bool
  rating : Option ℚ
  review_count : ℤ
  specifications : List (String × String)
deriving Repr, DecidableEq

/-- A stored `products` row (the columns the statement can touch). -/
structure StoredProduct where
  product_id : String
  title : String
  brand : String
  category : String
  subcategory : Option String
  image_url : Option String
  product_url : Option String
  current_price : ℚ
  original_price : ℚ
  discount_percent : ℚ
  is_available : Bool
  rating : Option ℚ
  review_count : ℤ
  specifications : List (String × String)
  scrape_count : ℤ
  last_updated : ℤ
deriving Repr, DecidableEq

namespace Product

/-- Products.js lines 24-43: the upsert's row-level semantics. `existing` is
the row already stored under the incoming `product_id` (if any); the result is
the row after the statement and the `isNew` flag (`xmax = 0`). -/
def upsert (existing : Option StoredProduct) (incoming : IncomingProduct) (now : ℤ) :
    StoredProduct × Bool :=
  match existing with
  | none =>
    ({ product_id := incoming.product_id
       title := incoming.title
       brand := incoming.brand
       category := incoming.category
       subcategory := incoming.subcategory
       image_url := incoming.image_url
       product_url := incoming.product_url
       current_price := incoming.current_price
       original_price := incoming.original_price
       discount_percent := incoming.discount_percent
       is_available := incoming.is_available
       rating := incoming.rating
       review_count := incoming.review_count
       specifications := incoming.specifications
       scrape_count := 1
       last_updated := now }, true)
  | some stored =>
    ({ stored with
       title := incoming.title
       current_price := incoming.current_price
       original_price := incoming.original_price
       discount_percent := incoming.discount_percent
       is_available := incoming.is_available
       rating := incoming.rating
       review_count := incoming.review_count
       image_url := incoming.image_url
       scrape_count := stored.scrape_count + 1
       last_updated := now }, false)

end Product

/-! ## Concrete records used by the closed-form checks -/

/-- A fully-populated candidate with inverted prices (current 1000, original
800) and enough quality signals to pass the gate. -/
def swapCandidate : CandidateRecord where
  title := "Nothing Phone 2a 5G (Black, 256GB)"
  image_url := some ("https://img.example/x.jpg")
  current_price := some 1000
  original_price := some 800
  discount_percent := some 10
  rating := some 4
  review_count := some 1200
  specifications := some [(("ram"), ("8GB")), (("storage"), ("256GB")), (("battery"), ("5000mAh"))]

/-- The record `validateProduct` produces for `swapCandidate`. -/
def swapValidated : ValidatedProduct where
  title := "Nothing Phone 2a 5G (Black, 256GB)"
  image_url := some ("https://img.example/x.jpg")
  current_price := 800
  original_price := 1000
  discount_percent := 20
  rating := some 4
  review_count := 1200
  specifications := [(("ram"), ("8GB")), (("storage"), ("256GB")), (("battery"), ("5000mAh"))]
  quality_score := 100

/-- Like `swapCandidate` but with an extreme inversion (current 1000, original
40): the recomputed discount is 96 and the clamp then caps it at 95. -/
def extremeSwapCandidate : CandidateRecord where
  title := "Nothing Phone 2a 5G (Black, 256GB)"
  image_url := some ("https://img.example/x.jpg")
  current_price := some 1000
  original_price := some 40
  discount_percent := some 10
  rating := some 4
  review_count := some 1200
  specifications := some [(("ram"), ("8GB")), (("storage"), ("256GB")), (("battery"), ("5000mAh"))]

/-- A well-formed candidate with no inversion, used to exercise the validator
invariants at a concrete input. -/
def plainCandidate : CandidateRecord where
  title := "Grand Phone 9 Pro 5G (Blue, 128GB)"
  image_url := some ("https://img.example/y.jpg")
  current_price := some 750
  original_price := some 1000
  discount_percent := some 25
  rating := some 4
  review_count := some 320
  specifications := some [(("ram"), ("8GB")), (("storage"), ("128GB")), (("battery"), ("5000mAh"))]

/-- The record `validateProduct` produces for `plainCandidate`. -/
def plainValidated : ValidatedProduct where
  title := "Grand Phone 9 Pro 5G (Blue, 128GB)"
  image_url := some ("https://img.example/y.jpg")
  current_price := 750
  original_price := 1000
  discount_percent := 25
  rating := some 4
  review_count := 320
  specifications := [(("ram"), ("8GB")), (("storage"), ("128GB")), (("battery"), ("5000mAh"))]
  quality_score := 100

/-- The quality-scenario record of the specification: empty specifications,
null rating, zero reviews, no image, a 15-character title, nonzero discount. -/
def scenarioCandidate : CandidateRecord where
  title := "ABCDEFGHIJKLMNO"
  image_url := none
  current_price := some 800
  original_price := some 1000
  discount_percent := some 20
  rating := none
  review_count := some 0
  specifications := some []

/-- A pattern store entry whose confidence is 0 (falsy in JS). -/
def zeroConfidenceEntry : FieldPattern where
  selectors := [("a"), ("b")]
  confidence := 0

/-- A pattern store entry with a mid-range confidence. -/
def midConfidenceEntry : FieldPattern where
  selectors := [("a"), ("b"), ("c")]
  confidence := 60

/-- A stored catalog row with a high review count and a known rating. -/
def storedRow : StoredProduct where
  product_id := "B0TEST01"
  title := "Grand Phone 9 Pro 5G (Blue, 128GB)"
  brand := "Grand"
  category := "Smartphones"
  subcategory := some ("Mobile Phones")
  image_url := some ("https://img.example/y.jpg")
  product_url := some ("https://www.example.in/dp/B0TEST01")
  current_price := 750
  original_price := 1000
  discount_percent := 25
  is_available := true
  rating := some 4
  review_count := 100
  specifications := [(("ram"), ("8GB"))]
  scrape_count := 3
  last_updated := 1700000000

/-- An incoming observation of the same product with fewer reviews and a
missing rating. -/
def incomingRow : IncomingProduct where
  product_id := "B0TEST01"
  title := "Grand Phone 9 Pro 5G (Blue, 128GB)"
  brand := "Grand"
  category := "Smartphones"
  subcategory := some ("Mobile Phones")
  image_url := some ("https://img.example/y.jpg")
  product_url := some ("https://www.example.in/dp/B0TEST01")
  current_price := 740
  original_price := 1000
  discount_percent := 26
  is_available := true
  rating := none
  review_count := 5
  specifications := [(("ram"), ("8GB"))]

/-! ## Theorems -/

-- The Batteries `Rat` arithmetic operations are `@[irreducible]`, which blocks
-- kernel evaluation of concrete rational computations; restore their
-- definitional behavior so closed-form checks can be settled by `decide`.
attribute [local semireducible] Rat.sub Rat.add Rat.mul Rat.inv

theorem jsRound_eq_floor (q : ℚ) : jsRound q = ⌊q + 1 / 2⌋ := by
  rw [jsRound, Rat.floor_def]

theorem clampDiscount_nonneg (d : Option ℚ) : 0 ≤ clampDiscount d := by
  unfold clampDiscount
  split_ifs <;> linarith

theorem clampDiscount_le (d : Option ℚ) : clampDiscount d ≤ 95 := by
  unfold clampDiscount
  split_ifs <;> linarith

theorem normalizeRating_ok (r : Option ℚ) :
    normalizeRating r = none ∨ ∃ x, normalizeRating r = some x ∧ 0 ≤ x ∧ x ≤ 5 := by
  cases r with
  | none => exact Or.inl rfl
  | some x =>
    rcases Decidable.em (x < 0 ∨ x > 5) with hx | hx
    · exact Or.inl (by simp only [normalizeRating, if_pos hx])
    · have h1 : 0 ≤ x := le_of_not_lt (fun h => hx (Or.inl h))
      have h2 : x ≤ 5 := le_of_not_lt (fun h => hx (Or.inr h))
      exact Or.inr ⟨x, by simp only [normalizeRating, if_neg hx], h1, h2⟩

theorem clampReviewCount_nonneg (rc : Option ℚ) : 0 ≤ clampReviewCount rc := by
  unfold clampReviewCount reviewCountRaw
  cases rc <;> dsimp only <;> split_ifs <;> linarith

theorem finalCurrent_le_finalOriginal (c0 o0 : ℚ) :
    finalCurrent c0 o0 ≤ finalOriginal c0 o0 := by
  unfold finalCurrent finalOriginal
  split_ifs with h
  · exact le_of_lt h
  · exact le_of_not_lt h

theorem calculateQualityScore_nonneg (r : Option ℚ) (rc : ℚ)
    (s : List (String × String)) (d : ℚ) (i : Option String) (t : String) :
    0 ≤ calculateQualityScore r rc s d i t := by
  unfold calculateQualityScore
  exact le_max_left 0 _

theorem calculateQualityScore_le_100 (r : Option ℚ) (rc : ℚ)
    (s : List (String × String)) (d : ℚ) (i : Option String) (t : String) :
    calculateQualityScore r rc s d i t ≤ 100 := by
  unfold calculateQualityScore
  split_ifs <;> decide

/-- C3: every candidate record that `validateProduct` accepts (for any
combination of missing, null, non-numeric or out-of-range inputs, all modelled
by `Option ℚ`) satisfies the invariants: discount percent in [0, 95], rating
null or in [0, 5], review count nonnegative, current price at most the original
price, and quality score in [0, 100]. -/
theorem validateProduct_invariants (p : CandidateRecord) (vp : ValidatedProduct)
    (h : validateProduct p = some vp) :
    0 ≤ vp.discount_percent ∧ vp.discount_percent ≤ 95 ∧
    (vp.rating = none ∨ ∃ r, vp.rating = some r ∧ 0 ≤ r ∧ r ≤ 5) ∧
    0 ≤ vp.review_count ∧
    vp.current_price ≤ vp.original_price ∧
    0 ≤ vp.quality_score ∧ vp.quality_score ≤ 100 := by
  cases hc : p.current_price with
  | none =>
    simp only [validateProduct, hc] at h
    exact Option.noConfusion h
  | some c0 =>
    simp only [validateProduct, hc] at h
    split_ifs at h with h0
    unfold gateOnQuality at h
    split_ifs at h with hq
    rw [Option.some_inj] at h
    subst h
    exact ⟨clampDiscount_nonneg _, clampDiscount_le _, normalizeRating_ok _,
      clampReviewCount_nonneg _, finalCurrent_le_finalOriginal _ _,
      calculateQualityScore_nonneg _ _ _ _ _ _, calculateQualityScore_le_100 _ _ _ _ _ _⟩

/-- C3 witness: the invariants instantiated at a concrete accepted record. -/
theorem validateProduct_invariants_witness :
    0 ≤ plainValidated.discount_percent ∧ plainValidated.discount_percent ≤ 95 ∧
    (plainValidated.rating = none ∨ ∃ r, plainValidated.rating = some r ∧ 0 ≤ r ∧ r ≤ 5) ∧
    0 ≤ plainValidated.review_count ∧
    plainValidated.current_price ≤ plainValidated.original_price ∧
    0 ≤ plainValidated.quality_score ∧ plainValidated.quality_score ≤ 100 :=
  validateProduct_invariants plainCandidate plainValidated (by decide)

/-- C4 (amended): when a candidate's original price is below its current price
(both present, original nonnegative), validation swaps the two prices and
recomputes the discount as round((original-current)/original*100) — which the
subsequent clamp then caps at 95, so the stored discount is the minimum of 95
and the recomputed rounding. -/
theorem validateProduct_swaps_inverted_prices (p : CandidateRecord) (c o : ℚ)
    (vp : ValidatedProduct) (hc : p.current_price = some c)
    (ho : p.original_price = some o) (honn : 0 ≤ o) (holt : o < c)
    (h : validateProduct p = some vp) :
    vp.original_price = c ∧ vp.current_price = o ∧
    vp.discount_percent = ((min 95 (jsRound (((c - o) / c) * 100)) : ℤ) : ℚ) := by
  have hcpos : 0 < c := lt_of_le_of_lt honn holt
  simp only [validateProduct, hc] at h
  split_ifs at h with h0
  have ho0 : normalizeOriginal c p.original_price = o := by
    rw [ho]
    simp only [normalizeOriginal]
    rw [if_neg (not_lt.mpr honn)]
  rw [ho0] at h
  unfold gateOnQuality at h
  split_ifs at h with hq
  rw [Option.some_inj] at h
  subst h
  refine ⟨?_, ?_, ?_⟩
  · show finalOriginal c o = c
    unfold finalOriginal
    rw [if_pos holt]
  · show finalCurrent c o = o
    unfold finalCurrent
    rw [if_pos holt]
  · show clampDiscount (discountAfterSwap c o p.discount_percent) = _
    unfold discountAfterSwap
    rw [if_pos holt]
    have hjnn : 0 ≤ jsRound (((c - o) / c) * 100) := by
      rw [jsRound_eq_floor]
      apply Int.floor_nonneg.mpr
      have h1 : 0 ≤ (c - o) / c := div_nonneg (by linarith) (le_of_lt hcpos)
      have h2 : 0 ≤ ((c - o) / c) * 100 := by linarith
      linarith
    unfold clampDiscount
    simp only [Option.getD_some]
    rw [if_neg (not_lt.mpr (by exact_mod_cast hjnn))]
    by_cases hj : ((jsRound (((c - o) / c) * 100) : ℤ) : ℚ) > 95
    · rw [if_pos hj]
      have h95 : (95 : ℤ) ≤ jsRound (((c - o) / c) * 100) := le_of_lt (by exact_mod_cast hj)
      rw [min_eq_left h95]
      norm_num
    · rw [if_neg hj]
      have h95 : jsRound (((c - o) / c) * 100) ≤ 95 := by exact_mod_cast not_lt.mp hj
      rw [min_eq_right h95]

/-- C4 witness: the inverted-price scenario current=1000, original=800 is
normalized to original=1000, current=800 with discount 20. -/
theorem validateProduct_swaps_inverted_prices_witness :
    (swapValidated.original_price = 1000 ∧ swapValidated.current_price = 800 ∧
      swapValidated.discount_percent =
        ((min 95 (jsRound (((1000 - 800) / 1000) * 100)) : ℤ) : ℚ)) ∧
    swapValidated.discount_percent = 20 :=
  ⟨validateProduct_swaps_inverted_prices swapCandidate 1000 800 swapValidated rfl rfl
      (by decide) (by decide) (by decide),
    by decide⟩

/-- C4 counterexample: for current=1000, original=40 the claim's formula gives
round(96) = 96, but the record `validateProduct` returns carries discount 95
(the clamp caps the recomputed value), so the claim as stated fails. -/
theorem validateProduct_swap_counterexample :
    extremeSwapCandidate.current_price = some 1000 ∧
    extremeSwapCandidate.original_price = some 40 ∧
    (validateProduct extremeSwapCandidate).map (fun vp => vp.discount_percent) = some 95 ∧
    ((jsRound (((1000 - 40) / 1000) * 100) : ℤ) : ℚ) = 96 := by decide

/-- C5 (amended): a record with empty specifications, null rating, zero
reviews, no image reference, a 15-character title and a (kept) nonzero discount
triggers six penalties — 100-15-10-20-10-10-10 = 25 — and is rejected by the
quality gate (25 < 30); with a zero discount the score is 20 and the record is
likewise rejected. -/
theorem qualityGate_scenario (p : CandidateRecord) (c o d : ℚ)
    (hc : p.current_price = some c) (hcpos : 0 < c)
    (ho : p.original_price = some o) (hco : c ≤ o)
    (hd : p.discount_percent = some d) (hd0 : 0 ≤ d) (hd95 : d ≤ 95)
    (hr : p.rating = none)
    (hrc : p.review_count = none ∨ p.review_count = some 0)
    (hs : p.specifications = none ∨ p.specifications = some [])
    (hi : p.image_url = none) (ht : p.title.length = 15) :
    validateProduct p = none ∧
    (d ≠ 0 → qualityOf p c o = 25) ∧
    (d = 0 → qualityOf p c o = 20) := by
  have honn : (0 : ℚ) ≤ o := le_trans (le_of_lt hcpos) hco
  have ho0 : normalizeOriginal c p.original_price = o := by
    rw [ho]
    simp only [normalizeOriginal]
    rw [if_neg (not_lt.mpr honn)]
  have hnr : normalizeRating p.rating = none := by
    rw [hr]
    rfl
  have hrc0 : clampReviewCount p.review_count = 0 := by
    rcases hrc with h1 | h1 <;> rw [h1] <;> decide
  have hsp : p.specifications.getD [] = [] := by
    rcases hs with h1 | h1 <;> rw [h1] <;> rfl
  have hdisc : clampDiscount (discountAfterSwap c o p.discount_percent) = d := by
    rw [hd]
    unfold discountAfterSwap
    rw [if_neg (not_lt.mpr hco)]
    unfold clampDiscount
    simp only [Option.getD_some]
    rw [if_neg (not_lt.mpr hd0), if_neg (not_lt.mpr hd95)]
  have hq : qualityOf p c o = max 0 (25 - (if d = 0 then 5 else 0)) := by
    unfold qualityOf
    rw [hnr, hrc0, hsp, hdisc, hi]
    unfold calculateQualityScore
    rw [ht]
    norm_num
    split_ifs <;> decide
  refine ⟨?_, ?_, ?_⟩
  · simp only [validateProduct, hc]
    rw [if_neg (not_le.mpr hcpos), ho0]
    unfold gateOnQuality
    rw [if_pos]
    rw [hq]
    split_ifs <;> decide
  · intro hdne
    rw [hq, if_neg hdne]
    decide
  · intro hdeq
    rw [hq, if_pos hdeq]
    decide

/-- C5 witness: the scenario instantiated at a concrete record with discount
20 — internal quality score 25, record rejected. -/
theorem qualityGate_scenario_witness :
    (validateProduct scenarioCandidate = none ∧
      ((20 : ℚ) ≠ 0 → qualityOf scenarioCandidate 800 1000 = 25) ∧
      ((20 : ℚ) = 0 → qualityOf scenarioCandidate 800 1000 = 20)) ∧
    qualityOf scenarioCandidate 800 1000 = 25 :=
  ⟨qualityGate_scenario scenarioCandidate 800 1000 20 rfl (by decide) rfl (by decide)
      rfl (by decide) (by decide) rfl (Or.inr rfl) (Or.inr rfl) rfl (by decide),
    by decide⟩

/-- C5 counterexample: the specification's scenario record scores 25, not 35,
and `validateProduct` rejects it instead of accepting it. -/
theorem qualityGate_scenario_counterexample :
    validateProduct scenarioCandidate = none ∧
    qualityOf scenarioCandidate 800 1000 ≠ 35 := by decide

/-- C9: the title attribute inferencer is a pure function in which every
attribute equals its own standalone extractor applied to the title (absence of
one match can never affect another attribute), and on the title
"Phone X 8GB RAM 128GB 5000mAh 5G" it infers exactly ram 8GB, storage 128GB,
battery 5000mAh and connectivity 5G, with every other attribute absent. -/
theorem extractSpecs_independent_scenario :
    (∀ t : List Char,
      (extractSpecsFromTitle t).ram = ramOf t ∧
      (extractSpecsFromTitle t).storage = storageOf t ∧
      (extractSpecsFromTitle t).display_size = displaySizeOf t ∧
      (extractSpecsFromTitle t).battery = batteryOf t ∧
      (extractSpecsFromTitle t).connectivity = connectivityOf t ∧
      (extractSpecsFromTitle t).camera = cameraOf t ∧
      (extractSpecsFromTitle t).processor = processorOf t ∧
      (extractSpecsFromTitle t).os = osOf t ∧
      (extractSpecsFromTitle t).refresh_rate = refreshRateOf t ∧
      (extractSpecsFromTitle t).fast_charging = fastChargingOf t ∧
      (extractSpecsFromTitle t).color = colorOf t) ∧
    extractSpecsFromTitle (("Phone X 8GB RAM 128GB 5000mAh 5G").toList) =
      { ram := some (("8GB").toList), storage := some (("128GB").toList),
        battery := some (("5000mAh").toList), connectivity := some (("5G").toList) } :=
  ⟨fun _ => ⟨rfl, rfl, rfl, rfl, rfl, rfl, rfl, rfl, rfl, rfl, rfl⟩, by decide⟩

theorem confOrDefault_of_pos (c : ℤ) (h : 1 ≤ c) : confOrDefault c = c := by
  unfold confOrDefault
  rw [if_neg (by omega)]

theorem jsIndexOf_pos_of_not_head (l : List String) (s : String)
    (hm : s ∈ l) (hh : l.head? ≠ some s) : jsIndexOf l s > 0 := by
  unfold jsIndexOf
  rw [if_pos hm]
  cases l with
  | nil => cases hm
  | cons a t =>
    have hne : a ≠ s := by
      intro h
      exact hh (by simp [h])
    rw [List.indexOf_cons_ne t hne]
    omega

theorem jsIndexOf_head (l : List String) (s : String) (hh : l.head? = some s) :
    jsIndexOf l s = 0 := by
  cases l with
  | nil => cases hh
  | cons a t =>
    have ha : a = s := by
      injection hh
    subst ha
    unfold jsIndexOf
    rw [if_pos (List.mem_cons_self a t)]
    rw [List.indexOf_cons_self]
    rfl

/-- C6 (amended): for a store entry with confidence in [1, 100], recordOutcome
with worked=true sets confidence to min(100, confidence+5) and moves the
successful selector to the front when it occurs in the list but not first
(leaving the list unchanged when it is already first); worked=false sets
confidence to max(0, confidence-10). (At confidence 0 the `|| 50` default
applies instead; see the counterexample.) -/
theorem updateConfidence_behavior (f : FieldPattern) (sel : String) (now : ℤ)
    (h1 : 1 ≤ f.confidence) (_h2 : f.confidence ≤ 100) :
    (updateConfidence f sel true now).confidence = min 100 (f.confidence + 5) ∧
    (updateConfidence f sel false now).confidence = max 0 (f.confidence - 10) ∧
    (sel ∈ f.selectors → f.selectors.head? ≠ some sel →
      (updateConfidence f sel true now).selectors = sel :: f.selectors.erase sel) ∧
    (f.selectors.head? = some sel →
      (updateConfidence f sel true now).selectors = f.selectors) := by
  have hcd : confOrDefault f.confidence = f.confidence := confOrDefault_of_pos _ h1
  refine ⟨?_, ?_, ?_, ?_⟩
  · unfold updateConfidence
    rw [if_pos rfl]
    split_ifs <;> simp [hcd]
  · unfold updateConfidence
    rw [if_neg Bool.false_ne_true]
    simp [hcd]
  · intro hm hh
    unfold updateConfidence
    rw [if_pos rfl, if_pos (jsIndexOf_pos_of_not_head _ _ hm hh)]
  · intro hh
    unfold updateConfidence
    rw [if_pos rfl, if_neg (by rw [jsIndexOf_head _ _ hh]; omega)]

/-- C6 witness: the behavior at a concrete entry with confidence 60. -/
theorem updateConfidence_behavior_witness :
    (updateConfidence midConfidenceEntry ("b") true 5).confidence =
      min 100 (midConfidenceEntry.confidence + 5) ∧
    (updateConfidence midConfidenceEntry ("b") false 5).confidence =
      max 0 (midConfidenceEntry.confidence - 10) ∧
    (("b") ∈ midConfidenceEntry.selectors →
      midConfidenceEntry.selectors.head? ≠ some ("b") →
      (updateConfidence midConfidenceEntry ("b") true 5).selectors =
        ("b") :: midConfidenceEntry.selectors.erase ("b")) ∧
    (midConfidenceEntry.selectors.head? = some ("b") →
      (updateConfidence midConfidenceEntry ("b") true 5).selectors =
        midConfidenceEntry.selectors) :=
  updateConfidence_behavior midConfidenceEntry ("b") 5 (by decide) (by decide)

/-- C6 counterexample: at confidence 0, worked=false yields 40 (the JS
`confidence || 50` default minus 10), not the claimed max(0, 0-10) = 0. -/
theorem updateConfidence_zero_confidence_counterexample :
    zeroConfidenceEntry.confidence = 0 ∧
    (updateConfidence zeroConfidenceEntry ("a") false 0).confidence = 40 ∧
    max 0 (zeroConfidenceEntry.confidence - 10) = 0 ∧
    (40 : ℤ) ≠ 0 := by decide

/-- C10: when the markup snippet captured from the failed element is missing or
shorter than 100 characters, healSelector returns null without calling the
external selector-inference service and without modifying the pattern store. -/
theorem healSelector_small_sample (sample : Option (List Char))
    (infer : List Char → Option InferredSelectors)
    (doc : Option (Option FieldPattern)) (now : ℤ)
    (h : sample = none ∨ ∃ s, sample = some s ∧ s.length < 100) :
    healSelector sample infer doc now = (none, false, doc) := by
  rcases h with h | ⟨s, hs, hlen⟩
  · rw [h]
    rfl
  · rw [hs]
    unfold healSelector
    dsimp only
    rw [if_pos hlen]

/-- C10 witness: a 3-character snippet is abandoned with no inference call and
an unchanged store. -/
theorem healSelector_small_sample_witness :
    healSelector (some (("div").toList)) (fun _ => none) none 0 = (none, false, none) :=
  healSelector_small_sample (some (("div").toList)) (fun _ => none) none 0
    (Or.inr ⟨("div").toList, rfl, by decide⟩)

theorem firstHit_none {V : Type} (te : String → Option V) (l : List String)
    (hall : ∀ s ∈ l, te s = none) : firstHit te l = none := by
  induction l with
  | nil => rfl
  | cons a t ih =>
    unfold firstHit
    rw [hall a (List.mem_cons_self a t), ih (fun s hs => hall s (List.mem_cons_of_mem a hs))]
    rfl

/-- C7: at most one heal attempt per (source, field) per 30-second window — a
`canHeal` that has just succeeded at time t makes every further call before
t+30000 return false — and when every selector for a field fails while the
cooldown is active, `smartExtract` makes no heal attempt, returns the
caller-supplied fallback value, and leaves both the pattern store entry and the
cooldown map unchanged. -/
theorem smartExtract_cooldown_active :
    (∀ (cd : String → ℤ) (pf fd : String) (t t' : ℤ),
      (canHeal cd pf fd t).1 = true → t' - t < 30000 →
      (canHeal (canHeal cd pf fd t).2 pf fd t').1 = false) ∧
    (∀ (V : Type) (hp : Bool) (store : FieldPattern) (cd : String → ℤ) (now : ℤ)
      (pf fd : String) (te : String → Option V)
      (ho : FieldPattern → Option String × FieldPattern) (fb : Option V),
      (∀ s ∈ store.selectors, te s = none) →
      now - cd (healKey pf fd) < 30000 →
      smartExtract hp store cd now pf fd te ho fb =
        { result := fb, store := store, cooldowns := cd, healAttempted := false }) := by
  constructor
  · intro cd pf fd t t' h1 h2
    unfold canHeal at h1 ⊢
    by_cases hw : t - cd (healKey pf fd) < 30000
    · rw [if_pos hw] at h1
      simp at h1
    · rw [if_neg hw] at h1 ⊢
      have hcond : t' - (fun k => if k = healKey pf fd then t else cd k) (healKey pf fd) < 30000 := by
        simpa using h2
      rw [if_pos hcond]
  · intro V hp store cd now pf fd te ho fb hall hcool
    have hch : canHeal cd pf fd now = (false, cd) := by
      unfold canHeal
      rw [if_pos hcool]
    unfold smartExtract
    rw [firstHit_none te store.selectors hall, hch]
    cases hp <;> rfl

/-- C7 witness: a concrete all-miss extraction under an active cooldown (last
attempt at 0, current time 10000) returns the fallback with both the store
entry and the cooldown map untouched. -/
theorem smartExtract_cooldown_active_witness :
    smartExtract true midConfidenceEntry (fun _ => 0) 10000 ("Amazon") ("rating")
      (fun _ => (none : Option ℚ)) (fun st => (none, st)) (some 0) =
      { result := some 0, store := midConfidenceEntry, cooldowns := fun _ => 0,
        healAttempted := false } :=
  smartExtract_cooldown_active.2 ℚ true midConfidenceEntry (fun _ => 0) 10000
    ("Amazon") ("rating") (fun _ => none) (fun st => (none, st)) (some 0)
    (fun _ _ => rfl) (by decide)

/-- C8: for every fetch-outcome oracle, `scrapePage` returns a value (a blocked
page or transport failure is never propagated as an error), and when all three
attempts fail the retries sleep the linear backoff delays 1*5000 and 2*5000 and
the final result is the empty page. -/
theorem scrapePage_retry_policy :
    (∀ (P : Type) (outcome : ℕ → Except String (List P)) (attempt : ℕ),
      exceptIsOk (scrapePage outcome attempt) = true) ∧
    (∀ (P : Type) (outcome : ℕ → Except String (List P)),
      exceptIsOk (outcome 1) = false → exceptIsOk (outcome 2) = false →
      exceptIsOk (outcome 3) = false →
      scrapePage outcome 1 = .ok ([], [1 * 5000, 2 * 5000])) := by
  constructor
  · intro P outcome attempt
    have H : ∀ (n : ℕ) (a : ℕ), 3 - a ≤ n → exceptIsOk (scrapePage outcome a) = true := by
      intro n
      induction n with
      | zero =>
        intro a ha
        unfold scrapePage
        cases outcome a with
        | ok ps => rfl
        | error e =>
          rw [dif_neg (by omega)]
          rfl
      | succ n ih =>
        intro a ha
        unfold scrapePage
        cases outcome a with
        | ok ps => rfl
        | error e =>
          by_cases hlt : a < 3
          · rw [dif_pos hlt]
            have hok := ih (a + 1) (by omega)
            cases hs : scrapePage outcome (a + 1) with
            | ok pr =>
              obtain ⟨ps, ds⟩ := pr
              rfl
            | error e1 =>
              rw [hs] at hok
              exact absurd hok (by simp [exceptIsOk])
          · rw [dif_neg hlt]
            rfl
    exact H (3 - attempt) attempt le_rfl
  · intro P outcome h1 h2 h3
    have he1 : ∃ e, outcome 1 = .error e := by
      cases ho : outcome 1 with
      | ok ps => rw [ho] at h1; exact absurd h1 (by simp [exceptIsOk])
      | error e => exact ⟨e, rfl⟩
    have he2 : ∃ e, outcome 2 = .error e := by
      cases ho : outcome 2 with
      | ok ps => rw [ho] at h2; exact absurd h2 (by simp [exceptIsOk])
      | error e => exact ⟨e, rfl⟩
    have he3 : ∃ e, outcome 3 = .error e := by
      cases ho : outcome 3 with
      | ok ps => rw [ho] at h3; exact absurd h3 (by simp [exceptIsOk])
      | error e => exact ⟨e, rfl⟩
    obtain ⟨e1, he1⟩ := he1
    obtain ⟨e2, he2⟩ := he2
    obtain ⟨e3, he3⟩ := he3
    have s3 : scrapePage outcome 3 = .ok ([], []) := by
      unfold scrapePage
      rw [he3, dif_neg (by omega)]
    have s2 : scrapePage outcome 2 = .ok ([], [2 * 5000]) := by
      unfold scrapePage
      rw [he2, dif_pos (by omega), s3]
    have s1 : scrapePage outcome 1 = .ok ([], [1 * 5000, 2 * 5000]) := by
      unfold scrapePage
      rw [he1, dif_pos (by omega), s2]
    exact s1

/-- C8 witness: an oracle that is blocked on every attempt — the driver
returns the empty page after backoffs 5000 and 10000, and never an error. -/
theorem scrapePage_retry_policy_witness :
    exceptIsOk (scrapePage (fun _ => (Except.error ("BLOCKED") : Except String (List Unit))) 1) =
      true ∧
    scrapePage (fun _ => (Except.error ("BLOCKED") : Except String (List Unit))) 1 =
      .ok ([], [1 * 5000, 2 * 5000]) :=
  ⟨scrapePage_retry_policy.1 Unit (fun _ => Except.error ("BLOCKED")) 1,
    scrapePage_retry_policy.2 Unit (fun _ => Except.error ("BLOCKED")) rfl rfl rfl⟩

/-- C1 (amended): on an upsert whose product identifier already exists, the
stored review_count becomes the incoming review_count unconditionally — the
statement writes `review_count = EXCLUDED.review_count`, not a maximum — so the
stored value can decrease across merges. -/
theorem upsert_review_count (stored : StoredProduct) (incoming : IncomingProduct) (now : ℤ) :
    (Product.upsert (some stored) incoming now).1.review_count = incoming.review_count := rfl

/-- C1 counterexample: a stored row with 100 reviews merged with an incoming
observation of 5 reviews ends with 5, not max(100, 5) = 100 — a decrease. -/
theorem upsert_review_count_counterexample :
    storedRow.review_count = 100 ∧ incomingRow.review_count = 5 ∧
    (Product.upsert (some storedRow) incomingRow 1700000100).1.review_count = 5 ∧
    (Product.upsert (some storedRow) incomingRow 1700000100).1.review_count ≠
      max storedRow.review_count incomingRow.review_count ∧
    (Product.upsert (some storedRow) incomingRow 1700000100).1.review_count <
      storedRow.review_count := by decide

/-- C2 (amended): on an upsert whose product identifier already exists, the
stored rating always becomes the incoming rating — `rating = EXCLUDED.rating` —
including a null incoming rating, which erases a previously known stored
rating. -/
theorem upsert_rating (stored : StoredProduct) (incoming : IncomingProduct) (now : ℤ) :
    (Product.upsert (some stored) incoming now).1.rating = incoming.rating := rfl

/-- C2 counterexample: a stored rating of 4 merged with a null incoming rating
becomes null instead of being kept. -/
theorem upsert_rating_counterexample :
    storedRow.rating = some 4 ∧ incomingRow.rating = none ∧
    (Product.upsert (some storedRow) incomingRow 1700000100).1.rating = none := by decide
